import Mathlib

/-!
Shallow embedding of the `unsafe-any` crate (`src/lib.rs`): traits for
unchecked downcasting from trait objects to references or owned boxes of
concrete types.

Memory is modelled as an explicit heap mapping addresses to type-erased
stored values (a type tag plus the value's bit pattern).  A trait object
(`Box<UnsafeAny>`, `&UnsafeAny`, ...) is a fat pointer: a data pointer
plus the vtable's type information.  The three downcast operations are
transliterated from the source: each extracts the data pointer with
`traitobject::data` / `traitobject::data_mut` and reinterprets it with
`mem::transmute`, performing no runtime type check and no state change.
Box destruction (Rust drop glue) is modelled explicitly so that the
single-release guarantee of `downcast_unchecked` can be stated.
-/

/-- A concrete Rust type, identified by its `TypeId`.  `isStatic` records
whether the type satisfies the `'static` lifetime bound (the bound of
`std::any::Any`); `dropEffect` is the number of externally observable
release events its destructor performs (the test's `Dropper` increments an
atomic counter once, so its `dropEffect` is 1; a plain `usize` has 0). -/
structure Ty where
  id : Nat
  isStatic : Bool
  dropEffect : Nat
deriving DecidableEq, Repr

/-- A type-erased stored value: the bytes at some heap address, as a bit
pattern together with the type those bytes actually are. -/
structure Dyn where
  ty : Ty
  bits : Nat
deriving DecidableEq, Repr

/-- Program state: the heap (address to stored value), the next fresh
address, and the global count of observable release events (the test's
shared atomic counter). -/
structure State where
  mem : Nat → Option Dyn
  next : Nat
  dropCount : Nat

/-- A trait object / fat pointer: the data pointer and the vtable's type
information.  This is the representation of `Box<UnsafeAny>`, `Box<Any>`,
`&UnsafeAny`, ... -/
structure TraitObject where
  data : Nat
  vtable : Ty
deriving DecidableEq, Repr

/-- A thin typed pointer: the representation of `Box<T>` and, after
`mem::transmute`, of `&T` / `&mut T`.  `ty` is the static type `T`. -/
structure BoxT where
  ptr : Nat
  ty : Ty
deriving DecidableEq, Repr

/-- A typed reference `&T` / `&mut T`: an address plus the static type the
caller asserts the storage to have. -/
structure Ref where
  addr : Nat
  ty : Ty
deriving DecidableEq, Repr

/-- From the `traitobject` crate: extract the data pointer of a fat
pointer (`traitobject::data`). -/
def traitobject.data (val : TraitObject) : Nat := val.data

/-- From the `traitobject` crate: extract the data pointer of a mutable
fat pointer (`traitobject::data_mut`). -/
def traitobject.data_mut (val : TraitObject) : Nat := val.data

/-- Rust's `Box::new(v)` followed by use as a `Box<T>`: allocate a fresh
address holding the value's bytes and return the new owning pointer. -/
def boxNew (s : State) (t : Ty) (bits : Nat) : State × BoxT :=
  ({ mem := fun a => if a = s.next then some ⟨t, bits⟩ else s.mem a
   , next := s.next + 1
   , dropCount := s.dropCount }
  , ⟨s.next, t⟩)

/-- The unsizing coercion `Box::new(x) as Box<UnsafeAny>` (or `as Box<Any>`):
builds the fat pointer from the thin pointer, attaching the concrete type's
vtable. -/
def eraseBox (b : BoxT) : TraitObject := ⟨b.ptr, b.ty⟩

/-- Rust drop glue for `Box<T>`: run `T`'s destructor on the payload
(performing its observable release events) and free the storage. -/
def dropBox (s : State) (b : BoxT) : State :=
  { mem := fun a => if a = b.ptr then none else s.mem a
  , next := s.next
  , dropCount := s.dropCount + b.ty.dropEffect }

/-- Read the bytes behind a typed reference (`*r` for `r : &T`), as the
stored bit pattern.  No type check occurs: the bytes are reinterpreted
as `T` whatever they actually are. -/
def readRef (s : State) (r : Ref) : Option Nat :=
  (s.mem r.addr).map Dyn.bits

/-- Write through a mutable typed reference (`*r = w` for `r : &mut T`):
the storage now holds bytes of type `T` with bit pattern `w`. -/
def writeRef (s : State) (r : Ref) (bits : Nat) : State :=
  { mem := fun a => if a = r.addr then some ⟨r.ty, bits⟩ else s.mem a
  , next := s.next
  , dropCount := s.dropCount }

/-- Inherent `UnsafeAny::downcast_ref_unchecked::<T>(&self) -> &T`
(src/lib.rs lines 26-28): `mem::transmute(traitobject::data(self))`.
State is threaded to make explicit that the body touches no memory. -/
def UnsafeAny.downcast_ref_unchecked (T : Ty) (s : State) (self : TraitObject) :
    State × Ref :=
  (s, ⟨traitobject.data self, T⟩)

/-- Inherent `UnsafeAny::downcast_mut_unchecked::<T>(&mut self) -> &mut T`
(src/lib.rs lines 35-37): `mem::transmute(traitobject::data_mut(self))`. -/
def UnsafeAny.downcast_mut_unchecked (T : Ty) (s : State) (self : TraitObject) :
    State × Ref :=
  (s, ⟨traitobject.data_mut self, T⟩)

/-- Inherent `UnsafeAny::downcast_unchecked::<T>(self: Box<UnsafeAny>) -> Box<T>`
(src/lib.rs lines 44-47): `let raw: *mut UnsafeAny = mem::transmute(self);`
(the owning box is consumed into a raw pointer, so its own destructor never
runs) then `mem::transmute(traitobject::data_mut(raw))` builds the typed
owning box from the data pointer.  No release event occurs here. -/
def UnsafeAny.downcast_unchecked (T : Ty) (s : State) (self : TraitObject) :
    State × BoxT :=
  let raw : TraitObject := self
  (s, ⟨traitobject.data_mut raw, T⟩)

/-- Extension-trait default `UnsafeAnyExt::downcast_ref_unchecked`
(src/lib.rs lines 57-59): same body as the inherent method,
`mem::transmute(traitobject::data(self))`. -/
def UnsafeAnyExt.downcast_ref_unchecked (T : Ty) (s : State) (self : TraitObject) :
    State × Ref :=
  (s, ⟨traitobject.data self, T⟩)

/-- Extension-trait default `UnsafeAnyExt::downcast_mut_unchecked`
(src/lib.rs lines 66-68). -/
def UnsafeAnyExt.downcast_mut_unchecked (T : Ty) (s : State) (self : TraitObject) :
    State × Ref :=
  (s, ⟨traitobject.data_mut self, T⟩)

/-- Extension-trait default `UnsafeAnyExt::downcast_unchecked`
(src/lib.rs lines 75-78): `let raw: *mut Self = mem::transmute(self);`
then `mem::transmute(traitobject::data_mut(raw))`. -/
def UnsafeAnyExt.downcast_unchecked (T : Ty) (s : State) (self : TraitObject) :
    State × BoxT :=
  let raw : TraitObject := self
  (s, ⟨traitobject.data_mut raw, T⟩)

/-- Whether a type implements `std::any::Any`: the standard library's
blanket impl covers exactly the types satisfying the static-lifetime
bound (`impl<T: 'static + ?Sized> Any for T`). -/
def implAny (t : Ty) : Bool := t.isStatic

/-- Whether a type implements the `UnsafeAny` capability marker, from the
blanket impl `impl<T: Any> UnsafeAny for T {}` (src/lib.rs line 18). -/
def implUnsafeAny (t : Ty) : Bool := implAny t

/-- The unsizing coercion to `Box<UnsafeAny>`, available exactly when the
payload's type implements the `UnsafeAny` marker. -/
def eraseAsUnsafeAny (b : BoxT) : Option TraitObject :=
  if implUnsafeAny b.ty then some (eraseBox b) else none

/-! Scenario pipelines: the traces of the operations the tests and the
specified properties perform, as explicit state-passing compositions. -/

/-- The test `test_box_downcast_no_double_free`, inherent path:
`Box::new(v) as Box<UnsafeAny>`, then `a.downcast_unchecked::<T>()`,
then `drop` of the returned `Box<T>`. -/
def boxDowncastDropInherent (s : State) (t : Ty) (bits : Nat) : State :=
  let r1 := boxNew s t bits
  let a := eraseBox r1.2
  let r2 := UnsafeAny.downcast_unchecked t r1.1 a
  dropBox r2.1 r2.2

/-- The test `test_box_downcast_no_double_free`, extension-trait path:
`Box::new(v) as Box<Any>`, then `a.downcast_unchecked::<T>()`, then
`drop` of the returned `Box<T>`. -/
def boxDowncastDropExt (s : State) (t : Ty) (bits : Nat) : State :=
  let r1 := boxNew s t bits
  let a := eraseBox r1.2
  let r2 := UnsafeAnyExt.downcast_unchecked t r1.1 a
  dropBox r2.1 r2.2

/-- Erase a value and borrow it back immutably via the inherent method:
`*(Box::new(v) as Box<UnsafeAny>).downcast_ref_unchecked::<T>()`. -/
def roundTripRefInherent (s : State) (t : Ty) (bits : Nat) : Option Nat :=
  let r1 := boxNew s t bits
  let a := eraseBox r1.2
  let r2 := UnsafeAny.downcast_ref_unchecked t r1.1 a
  readRef r2.1 r2.2

/-- Erase a value and borrow it back mutably via the inherent method. -/
def roundTripMutInherent (s : State) (t : Ty) (bits : Nat) : Option Nat :=
  let r1 := boxNew s t bits
  let a := eraseBox r1.2
  let r2 := UnsafeAny.downcast_mut_unchecked t r1.1 a
  readRef r2.1 r2.2

/-- Erase a value and borrow it back immutably via the extension trait. -/
def roundTripRefExt (s : State) (t : Ty) (bits : Nat) : Option Nat :=
  let r1 := boxNew s t bits
  let a := eraseBox r1.2
  let r2 := UnsafeAnyExt.downcast_ref_unchecked t r1.1 a
  readRef r2.1 r2.2

/-- Erase a value and borrow it back mutably via the extension trait. -/
def roundTripMutExt (s : State) (t : Ty) (bits : Nat) : Option Nat :=
  let r1 := boxNew s t bits
  let a := eraseBox r1.2
  let r2 := UnsafeAnyExt.downcast_mut_unchecked t r1.1 a
  readRef r2.1 r2.2

/-- Write-then-read through the erased handle, re-access mutably:
erase `v`, write `w` through `downcast_mut_unchecked::<T>`, downcast
the same handle mutably again and read. -/
def writeThenReadMut (s : State) (t : Ty) (v w : Nat) : Option Nat :=
  let r1 := boxNew s t v
  let a := eraseBox r1.2
  let r2 := UnsafeAny.downcast_mut_unchecked t r1.1 a
  let s3 := writeRef r2.1 r2.2 w
  let r4 := UnsafeAny.downcast_mut_unchecked t s3 a
  readRef r4.1 r4.2

/-- Write-then-read through the erased handle, re-access immutably:
erase `v`, write `w` through `downcast_mut_unchecked::<T>`, downcast
the same handle immutably and read. -/
def writeThenReadRef (s : State) (t : Ty) (v w : Nat) : Option Nat :=
  let r1 := boxNew s t v
  let a := eraseBox r1.2
  let r2 := UnsafeAny.downcast_mut_unchecked t r1.1 a
  let s3 := writeRef r2.1 r2.2 w
  let r4 := UnsafeAny.downcast_ref_unchecked t s3 a
  readRef r4.1 r4.2

/-! Machinery for the extension-trait impl coverage (src/lib.rs lines
81-88) and the cost model. -/

/-- The base trait of a trait-object type: `Any` or `UnsafeAny`. -/
inductive BaseTrait
  | any
  | unsafeAny
deriving DecidableEq, Repr

/-- One of the eight erased-handle (trait-object) types: a base trait
optionally combined with the `Send` and/or `Sync` auto markers. -/
structure TraitObjKind where
  base : BaseTrait
  sendMarker : Bool
  syncMarker : Bool
deriving DecidableEq, Repr

/-- The three methods an `UnsafeAnyExt` implementation provides. -/
structure ExtMethods where
  downcast_ref_unchecked : Ty → State → TraitObject → State × Ref
  downcast_mut_unchecked : Ty → State → TraitObject → State × Ref
  downcast_unchecked : Ty → State → TraitObject → State × BoxT

/-- The default method bodies declared in the `UnsafeAnyExt` trait itself
(src/lib.rs lines 51-79). -/
def defaultExtMethods : ExtMethods :=
  { downcast_ref_unchecked := UnsafeAnyExt.downcast_ref_unchecked
  , downcast_mut_unchecked := UnsafeAnyExt.downcast_mut_unchecked
  , downcast_unchecked := UnsafeAnyExt.downcast_unchecked }

/-- The `unsafe impl UnsafeAnyExt for ...` blocks (src/lib.rs lines
81-88), one match arm per impl line; every impl block is empty, so each
provides exactly the trait's default method bodies. -/
def extMethodsFor (k : TraitObjKind) : ExtMethods :=
  match k with
  | ⟨.any, false, false⟩ => defaultExtMethods
  | ⟨.unsafeAny, false, false⟩ => defaultExtMethods
  | ⟨.any, true, false⟩ => defaultExtMethods
  | ⟨.any, false, true⟩ => defaultExtMethods
  | ⟨.any, true, true⟩ => defaultExtMethods
  | ⟨.unsafeAny, true, false⟩ => defaultExtMethods
  | ⟨.unsafeAny, false, true⟩ => defaultExtMethods
  | ⟨.unsafeAny, true, true⟩ => defaultExtMethods

/-- Cost of one `traitobject::data` / `traitobject::data_mut` call: a
single pointer extraction. -/
def traitobjectDataCost : Nat := 1

/-- Cost of one `mem::transmute`: a single reinterpretation, no work. -/
def transmuteCost : Nat := 1

/-- Primitive-operation count of `downcast_ref_unchecked`, transliterated
from its straight-line body `mem::transmute(traitobject::data(self))`. -/
def downcast_ref_unchecked_cost (self : TraitObject) : Nat :=
  traitobjectDataCost + transmuteCost

/-- Primitive-operation count of `downcast_mut_unchecked`, from the body
`mem::transmute(traitobject::data_mut(self))`. -/
def downcast_mut_unchecked_cost (self : TraitObject) : Nat :=
  traitobjectDataCost + transmuteCost

/-- Primitive-operation count of `downcast_unchecked`, from the body
`let raw = mem::transmute(self); mem::transmute(traitobject::data_mut(raw))`. -/
def downcast_unchecked_cost (self : TraitObject) : Nat :=
  transmuteCost + traitobjectDataCost + transmuteCost

/-- The `usize` type of the tests: `'static`, trivial destructor. -/
def usizeTy : Ty := ⟨0, true, 0⟩

/-- The test's `Dropper` type: `'static`, and its destructor performs
exactly one observable release event (one atomic counter increment). -/
def dropperTy : Ty := ⟨1, true, 1⟩

/-- The empty initial state: empty heap, counter at zero (the test's
`AtomicUsize::new(0)`). -/
def initState : State := ⟨fun _ => none, 0, 0⟩

/-! Theorems -/

/-- Helper: every one of the eight `UnsafeAnyExt` impl blocks is empty,
so each provides exactly the trait's default method bodies. -/
theorem extMethodsFor_eq_default (k : TraitObjKind) :
    extMethodsFor k = defaultExtMethods := by
  rcases k with ⟨b, sm, ym⟩
  cases b <;> cases sm <;> cases ym <;> rfl

/-- C1: erasing a value with an observable destructor into an owned
trait-object container (`Box<UnsafeAny>` or `Box<Any>`), taking it back
with `downcast_unchecked::<T>`, and dropping the returned `Box<T>` runs
the payload's cleanup exactly once — never zero times and never twice —
because the source container's destruction is suppressed by the transfer. -/
theorem downcast_unchecked_single_release (s : State) (t : Ty) (bits : Nat)
    (h : t.dropEffect = 1) :
    (boxDowncastDropInherent s t bits).dropCount = s.dropCount + 1 ∧
    (boxDowncastDropExt s t bits).dropCount = s.dropCount + 1 ∧
    (boxDowncastDropInherent s t bits).dropCount ≠ s.dropCount ∧
    (boxDowncastDropInherent s t bits).dropCount ≠ s.dropCount + 2 ∧
    (UnsafeAny.downcast_unchecked t s (eraseBox ⟨s.next, t⟩)).1.dropCount = s.dropCount := by
  refine ⟨?_, ?_, ?_, ?_, rfl⟩ <;>
    simp [boxDowncastDropInherent, boxDowncastDropExt, boxNew, eraseBox,
      UnsafeAny.downcast_unchecked, UnsafeAnyExt.downcast_unchecked, dropBox,
      traitobject.data_mut, h]

/-- Witness for C1 at the test's `Dropper` from the empty state. -/
theorem downcast_unchecked_single_release_witness :
    dropperTy.dropEffect = 1 ∧
    ((boxDowncastDropInherent initState dropperTy 0).dropCount = initState.dropCount + 1 ∧
     (boxDowncastDropExt initState dropperTy 0).dropCount = initState.dropCount + 1 ∧
     (boxDowncastDropInherent initState dropperTy 0).dropCount ≠ initState.dropCount ∧
     (boxDowncastDropInherent initState dropperTy 0).dropCount ≠ initState.dropCount + 2 ∧
     (UnsafeAny.downcast_unchecked dropperTy initState
        (eraseBox ⟨initState.next, dropperTy⟩)).1.dropCount = initState.dropCount) :=
  ⟨rfl, downcast_unchecked_single_release initState dropperTy 0 rfl⟩

/-- C2: erasing any value `v` of a concrete type behind the capability
marker and borrowing it back as that type — immutably via
`downcast_ref_unchecked` or mutably via `downcast_mut_unchecked`, on both
the inherent and the extension-trait path — observes exactly `v`'s bit
pattern. -/
theorem downcast_roundtrip_identity (s : State) (t : Ty) (v : Nat) :
    roundTripRefInherent s t v = some v ∧
    roundTripMutInherent s t v = some v ∧
    roundTripRefExt s t v = some v ∧
    roundTripMutExt s t v = some v := by
  refine ⟨?_, ?_, ?_, ?_⟩ <;>
    simp [roundTripRefInherent, roundTripMutInherent, roundTripRefExt, roundTripMutExt,
      boxNew, eraseBox, UnsafeAny.downcast_ref_unchecked, UnsafeAny.downcast_mut_unchecked,
      UnsafeAnyExt.downcast_ref_unchecked, UnsafeAnyExt.downcast_mut_unchecked,
      traitobject.data, traitobject.data_mut, readRef]

/-- C3: writing `w` through the mutable reference returned by
`downcast_mut_unchecked::<T>` and re-reinterpreting the same erased
handle as `T` — mutably or immutably — observes `w` (read-after-write
consistency through the erased handle). -/
theorem downcast_mut_write_visible (s : State) (t : Ty) (v w : Nat) :
    writeThenReadMut s t v w = some w ∧
    writeThenReadRef s t v w = some w := by
  refine ⟨?_, ?_⟩ <;>
    simp [writeThenReadMut, writeThenReadRef, boxNew, eraseBox,
      UnsafeAny.downcast_ref_unchecked, UnsafeAny.downcast_mut_unchecked,
      traitobject.data, traitobject.data_mut, readRef, writeRef]

/-- C4: none of the three operations performs runtime type verification
or returns a failure indicator: each result is a definite plain reference
or owned box aimed at the handle's data pointer, identical whatever type
information the handle's vtable carries. -/
theorem downcast_no_runtime_check (T : Ty) (s : State) (a : Nat) (t1 t2 : Ty) :
    UnsafeAny.downcast_ref_unchecked T s ⟨a, t1⟩ = UnsafeAny.downcast_ref_unchecked T s ⟨a, t2⟩ ∧
    UnsafeAny.downcast_mut_unchecked T s ⟨a, t1⟩ = UnsafeAny.downcast_mut_unchecked T s ⟨a, t2⟩ ∧
    UnsafeAny.downcast_unchecked T s ⟨a, t1⟩ = UnsafeAny.downcast_unchecked T s ⟨a, t2⟩ ∧
    UnsafeAnyExt.downcast_ref_unchecked T s ⟨a, t1⟩ = UnsafeAnyExt.downcast_ref_unchecked T s ⟨a, t2⟩ ∧
    UnsafeAnyExt.downcast_mut_unchecked T s ⟨a, t1⟩ = UnsafeAnyExt.downcast_mut_unchecked T s ⟨a, t2⟩ ∧
    UnsafeAnyExt.downcast_unchecked T s ⟨a, t1⟩ = UnsafeAnyExt.downcast_unchecked T s ⟨a, t2⟩ ∧
    (UnsafeAny.downcast_ref_unchecked T s ⟨a, t1⟩).2 = ⟨a, T⟩ ∧
    (UnsafeAny.downcast_mut_unchecked T s ⟨a, t1⟩).2 = ⟨a, T⟩ ∧
    (UnsafeAny.downcast_unchecked T s ⟨a, t1⟩).2 = ⟨a, T⟩ ∧
    (UnsafeAnyExt.downcast_ref_unchecked T s ⟨a, t1⟩).2 = ⟨a, T⟩ ∧
    (UnsafeAnyExt.downcast_mut_unchecked T s ⟨a, t1⟩).2 = ⟨a, T⟩ ∧
    (UnsafeAnyExt.downcast_unchecked T s ⟨a, t1⟩).2 = ⟨a, T⟩ :=
  ⟨rfl, rfl, rfl, rfl, rfl, rfl, rfl, rfl, rfl, rfl, rfl, rfl⟩

/-- C5: the borrow operations have no side effects: the program state
(heap, allocator, release counter) is returned unchanged — nothing is
allocated, copied, dropped, or moved — and the returned reference points
exactly at the input handle's data pointer. -/
theorem downcast_borrow_no_side_effects (T : Ty) (s : State) (h : TraitObject) :
    (UnsafeAny.downcast_ref_unchecked T s h).1 = s ∧
    (UnsafeAny.downcast_ref_unchecked T s h).2.addr = h.data ∧
    (UnsafeAny.downcast_mut_unchecked T s h).1 = s ∧
    (UnsafeAny.downcast_mut_unchecked T s h).2.addr = h.data ∧
    (UnsafeAnyExt.downcast_ref_unchecked T s h).1 = s ∧
    (UnsafeAnyExt.downcast_ref_unchecked T s h).2.addr = h.data ∧
    (UnsafeAnyExt.downcast_mut_unchecked T s h).1 = s ∧
    (UnsafeAnyExt.downcast_mut_unchecked T s h).2.addr = h.data :=
  ⟨rfl, rfl, rfl, rfl, rfl, rfl, rfl, rfl⟩

/-- C6: every operation terminates: each downcast is a straight-line,
non-recursive reinterpretation whose primitive-operation count is the
same constant for every input, and each always yields a result. -/
theorem downcast_constant_time (h h' : TraitObject) (T : Ty) (s : State) :
    downcast_ref_unchecked_cost h = downcast_ref_unchecked_cost h' ∧
    downcast_mut_unchecked_cost h = downcast_mut_unchecked_cost h' ∧
    downcast_unchecked_cost h = downcast_unchecked_cost h' ∧
    downcast_ref_unchecked_cost h = 2 ∧
    downcast_mut_unchecked_cost h = 2 ∧
    downcast_unchecked_cost h = 3 ∧
    (∃ r, UnsafeAny.downcast_ref_unchecked T s h = r) ∧
    (∃ r, UnsafeAny.downcast_mut_unchecked T s h = r) ∧
    (∃ r, UnsafeAny.downcast_unchecked T s h = r) :=
  ⟨rfl, rfl, rfl, rfl, rfl, rfl, ⟨_, rfl⟩, ⟨_, rfl⟩, ⟨_, rfl⟩⟩

/-- C7: erasing the integer `7` behind the capability and borrowing it
back immutably with `downcast_ref_unchecked::<usize>` dereferences to
`7`, on both the inherent and the extension-trait path. -/
theorem downcast_seven :
    roundTripRefInherent initState usizeTy 7 = some 7 ∧
    roundTripRefExt initState usizeTy 7 = some 7 := by
  refine ⟨?_, ?_⟩ <;> rfl

/-- C8: every type implementing `Any` (every `'static` type) implements
the `UnsafeAny` capability marker through the blanket impl, so any such
value can be erased behind the `UnsafeAny` handle with no per-type
opt-in. -/
theorem unsafe_any_blanket_impl (t : Ty) (p : Nat) (h : implAny t = true) :
    implUnsafeAny t = true ∧
    eraseAsUnsafeAny ⟨p, t⟩ = some ⟨p, t⟩ := by
  refine ⟨h, ?_⟩
  simp [eraseAsUnsafeAny, implUnsafeAny, h, eraseBox]

/-- Witness for C8 at the test's `usize` type and address 0. -/
theorem unsafe_any_blanket_impl_witness :
    implAny usizeTy = true ∧
    (implUnsafeAny usizeTy = true ∧
     eraseAsUnsafeAny ⟨0, usizeTy⟩ = some ⟨0, usizeTy⟩) :=
  ⟨rfl, unsafe_any_blanket_impl usizeTy 0 rfl⟩

/-- C9: `UnsafeAnyExt` is implemented for all eight trait-object
combinations of `Any` / `UnsafeAny` with the `Send` and `Sync` markers,
each impl with the trait's default method bodies, so all eight erased
handle types expose the same three downcasts with identical behavior. -/
theorem unsafe_any_ext_impl_coverage (k k' : TraitObjKind) (T : Ty) (s : State)
    (h : TraitObject) :
    extMethodsFor k = defaultExtMethods ∧
    extMethodsFor k = extMethodsFor k' ∧
    (extMethodsFor k).downcast_ref_unchecked T s h = UnsafeAnyExt.downcast_ref_unchecked T s h ∧
    (extMethodsFor k).downcast_mut_unchecked T s h = UnsafeAnyExt.downcast_mut_unchecked T s h ∧
    (extMethodsFor k).downcast_unchecked T s h = UnsafeAnyExt.downcast_unchecked T s h := by
  have e := extMethodsFor_eq_default k
  have e' := extMethodsFor_eq_default k'
  refine ⟨e, e.trans e'.symm, ?_, ?_, ?_⟩ <;> rw [e] <;> rfl

/-- C10: the inherent operations on the `UnsafeAny` trait object and the
default methods of the `UnsafeAnyExt` extension trait are behaviorally
identical: on every erased handle each pair returns the same result. -/
theorem inherent_ext_behaviorally_identical (T : Ty) (s : State) (h : TraitObject) :
    UnsafeAny.downcast_ref_unchecked T s h = UnsafeAnyExt.downcast_ref_unchecked T s h ∧
    UnsafeAny.downcast_mut_unchecked T s h = UnsafeAnyExt.downcast_mut_unchecked T s h ∧
    UnsafeAny.downcast_unchecked T s h = UnsafeAnyExt.downcast_unchecked T s h :=
  ⟨rfl, rfl, rfl⟩
